import Mathlib

/-!
Verification of the Dota2 team-match-ID crawler
(`Get team match ID/获取战队比赛编号.py`).

The script resolves a team name to a team id by case-insensitive substring
search over the list returned by the `/api/teams` endpoint, fetches the
team's match list, and writes the match ids to `<team_name>_match_ids.csv`.

The embedding models:
  * JSON values (`JVal`) as returned by `response.json()`; JSON numbers are
    modelled as integers, which covers every value the claims exercise;
  * the Python exceptions that can arise in the two crawler functions
    (`PyExc`), distinguishing the ones the `except` clauses catch
    (`requests.exceptions.RequestException`, `KeyError`, `IndexError`,
    `ValueError`) from those they do not (`TypeError`, `AttributeError`);
  * each HTTP call's outcome (`HttpResult`): transport failure / non-2xx
    (`requests.get` or `raise_for_status` raising a `RequestException`),
    a body that fails JSON decoding (`response.json()` raising a
    `ValueError` subclass), or a decoded JSON document;
  * the filesystem as a map from filenames to file contents, a file's
    content as its list of rows (pandas' `to_csv` writes the header row
    followed by one row per list element, `index=False` so no index
    column);
  * `main` as a function from the user input and the two HTTP outcomes to
    a run record that tracks which stages executed, which network calls
    were made and what file was written.  Console output is not modelled.
-/

namespace Dota2

/-- JSON values as produced by `response.json()`.  Object fields model a
Python `dict` (keys distinct, insertion order preserved).  JSON numbers are
modelled as integers. -/
inductive JVal where
  | null
  | bool (b : Bool)
  | num (n : Int)
  | str (s : String)
  | arr (elems : List JVal)
  | obj (fields : List (String × JVal))

/-- The Python exception classes that can arise inside `get_team_id` and
`crawl_match_ids`. -/
inductive PyExc where
  | requestException
  | keyError
  | indexError
  | valueError
  | typeError
  | attributeError

/-- Outcome of `requests.get(url)` followed by `response.raise_for_status()`
and `response.json()`:  transport failure or non-2xx status
(`RequestException`), JSON decode failure (`ValueError`), or a decoded
document. -/
inductive HttpResult where
  | netError
  | badJson
  | ok (data : JVal)

/-- Does `needle` start the list `hay`?  (Both operands are the character
lists of Python strings.) -/
def listStartsWith : List Char → List Char → Bool
  | [], _ => true
  | _ :: _, [] => false
  | a :: as, b :: bs => a == b && listStartsWith as bs

/-- Python's `needle in hay` for strings: contiguous-substring test. -/
def strContainsL (hay needle : List Char) : Bool :=
  match hay with
  | [] => needle.isEmpty
  | _ :: rest => listStartsWith needle hay || strContainsL rest needle

/-- Python's `s.lower()`, as a character list. -/
def lowerStr (s : String) : List Char :=
  s.data.map Char.toLower

/-- Lookup in a Python dict modelled as an association list with distinct
keys. -/
def fieldLookup (key : String) : List (String × JVal) → Option JVal
  | [] => none
  | (k, v) :: rest => if k == key then some v else fieldLookup key rest

/-- `objLookup key v` is `v[key]` when `v` is a mapping that has the key. -/
def objLookup (key : String) : JVal → Option JVal
  | .obj fields => fieldLookup key fields
  | _ => none

/-- Python `==` between a string literal and a JSON value (used by `in` on
lists): equal only to an equal string, `False` against any other type. -/
def eqStrKey (key : String) : JVal → Bool
  | .str s => s == key
  | _ => false

/-- Python's `key in team`: key membership for a dict, element membership
for a list, substring for a string, `TypeError` for the remaining types. -/
def pyContains (key : String) : JVal → Except PyExc Bool
  | .obj fields => .ok (fieldLookup key fields).isSome
  | .arr elems => .ok (elems.any (eqStrKey key))
  | .str s => .ok (strContainsL s.data key.data)
  | _ => .error .typeError

/-- Python's `team[key]` with a string key: dict lookup (`KeyError` when
missing); a string subscript on a list, a string or any other type raises
`TypeError`. -/
def pySubscript (key : String) (v : JVal) : Except PyExc JVal :=
  match v with
  | .obj fields =>
      match fieldLookup key fields with
      | some x => .ok x
      | none => .error .keyError
  | _ => .error .typeError

/-- Python's `v.lower()`: defined on strings, `AttributeError` otherwise. -/
def pyLower : JVal → Except PyExc (List Char)
  | .str s => .ok (lowerStr s)
  | _ => .error .attributeError

/-- Python truthiness of a JSON value. -/
def pyTruthy : JVal → Bool
  | .null => false
  | .bool b => b
  | .num n => n != 0
  | .str s => !s.isEmpty
  | .arr elems => !elems.isEmpty
  | .obj fields => !fields.isEmpty

/-- The loop condition of `get_team_id`:
`'name' in team and team_name.lower() in team['name'].lower()`. -/
def matchesName (team_name : String) (team : JVal) : Except PyExc Bool :=
  match pyContains "name" team with
  | .error e => .error e
  | .ok false => .ok false
  | .ok true =>
      match pySubscript "name" team with
      | .error e => .error e
      | .ok nameVal =>
          match pyLower nameVal with
          | .error e => .error e
          | .ok lowered => .ok (strContainsL lowered (lowerStr team_name))

/-- The `for team in data` loop of `get_team_id`: the first record whose
condition holds yields `team['team_id']`; falling off the end yields
`None`. -/
def findTeamLoop (team_name : String) : List JVal → Except PyExc (Option JVal)
  | [] => .ok none
  | team :: rest =>
      match matchesName team_name team with
      | .error e => .error e
      | .ok true =>
          match pySubscript "team_id" team with
          | .error e => .error e
          | .ok tid => .ok (some tid)
      | .ok false => findTeamLoop team_name rest

/-- Body of `get_team_id` after the JSON document is obtained:
`if data and isinstance(data, list)` runs the loop (so only a non-empty
list does); every other shape prints not-found and returns `None`. -/
def get_team_id_body (team_name : String) (data : JVal) : Except PyExc (Option JVal) :=
  match data with
  | .arr (t :: ts) => findTeamLoop team_name (t :: ts)
  | _ => .ok none

/-- Which exception classes the two `except` clauses of `get_team_id` and
`crawl_match_ids` cover: `requests.exceptions.RequestException` and
`(KeyError, IndexError, ValueError)`.  `TypeError` and `AttributeError`
are not covered. -/
def catchesExc : PyExc → Bool
  | .requestException => true
  | .keyError => true
  | .indexError => true
  | .valueError => true
  | .typeError => false
  | .attributeError => false

/-- The `try`/`except` wrapper shared by both crawler functions: a caught
exception becomes the sentinel value (after printing a message); any other
exception propagates. -/
def runGuarded {α : Type} (sentinel : α) (body : Except PyExc α) : Except PyExc α :=
  match body with
  | .ok v => .ok v
  | .error e => if catchesExc e then .ok sentinel else .error e

/-- `requests.get` + `raise_for_status` + `response.json()` as the exception
they raise or the document they produce. -/
def httpJson : HttpResult → Except PyExc JVal
  | .netError => .error .requestException
  | .badJson => .error .valueError
  | .ok data => .ok data

/-- `get_team_id(team_name)`, parameterized by the outcome of its single
request to the team-listing endpoint.  Sentinel on caught failure: `None`. -/
def get_team_id (team_name : String) (resp : HttpResult) : Except PyExc (Option JVal) :=
  runGuarded none
    (match httpJson resp with
     | .error e => .error e
     | .ok data => get_team_id_body team_name data)

/-- The list comprehension of `crawl_match_ids`:
`[match['match_id'] for match in data if 'match_id' in match]`. -/
def extractMatchIds : List JVal → Except PyExc (List JVal)
  | [] => .ok []
  | m :: rest =>
      match pyContains "match_id" m with
      | .error e => .error e
      | .ok true =>
          match pySubscript "match_id" m with
          | .error e => .error e
          | .ok v =>
              match extractMatchIds rest with
              | .error e => .error e
              | .ok vs => .ok (v :: vs)
      | .ok false => extractMatchIds rest

/-- Body of `crawl_match_ids` after the JSON document is obtained: the
comprehension runs only when `data` is truthy and a list; otherwise prints
no-data and returns `[]`. -/
def crawl_match_ids_body (data : JVal) : Except PyExc (List JVal) :=
  match data with
  | .arr (m :: ms) => extractMatchIds (m :: ms)
  | _ => .ok []

/-- `crawl_match_ids(team_id)`, parameterized by the outcome of its single
request to the team-matches endpoint (the team id only selects the URL).
Sentinel on caught failure: `[]`. -/
def crawl_match_ids (team_id : JVal) (resp : HttpResult) : Except PyExc (List JVal) :=
  runGuarded []
    (match httpJson resp with
     | .error e => .error e
     | .ok data => crawl_match_ids_body data)

/-! ### Decimal rendering and parsing

`export_to_csv` builds `pd.DataFrame({'match_id': match_ids})` and writes it
with `to_csv(filename, index=False, encoding='utf-8')`: a `match_id` header
row followed by one row per element, Python integers rendered in decimal
(`str(i)`).  The renderer below is that decimal form; the parser is used to
state the read-back claim. -/

/-- The decimal digits of `n`, most significant first, by repeated division;
`fuel ≥ n` suffices.  `natDecAux n 0 = []` (the caller special-cases zero,
as `str(0) = "0"`). -/
def natDecAux : Nat → Nat → List Char
  | 0, _ => []
  | fuel + 1, n =>
      if n = 0 then [] else natDecAux fuel (n / 10) ++ [Nat.digitChar (n % 10)]

/-- Python's `str(n)` for a natural number. -/
def natDec (n : Nat) : List Char :=
  if n = 0 then ['0'] else natDecAux n n

/-- Python's `str(i)` for an integer: a minus sign before the digits of the
absolute value when negative. -/
def intDec (i : Int) : List Char :=
  if i < 0 then '-' :: natDec i.natAbs else natDec i.natAbs

/-- `str(i)` as a `String`. -/
def intDecStr (i : Int) : String :=
  ⟨intDec i⟩

/-- The numeric value of a decimal digit character, `none` otherwise. -/
def decDigit? (c : Char) : Option Nat :=
  if '0' ≤ c ∧ c ≤ '9' then some (c.toNat - '0'.toNat) else none

/-- Left-to-right accumulation of decimal digits; fails on a non-digit. -/
def parseNatAux (acc : Nat) : List Char → Option Nat
  | [] => some acc
  | c :: cs =>
      match decDigit? c with
      | some d => parseNatAux (acc * 10 + d) cs
      | none => none

/-- Parse a non-empty all-digits string as a natural number. -/
def parseNat : List Char → Option Nat
  | [] => none
  | c :: cs => parseNatAux 0 (c :: cs)

/-- Parse an optionally minus-signed decimal integer. -/
def parseInt : List Char → Option Int
  | [] => none
  | c :: cs =>
      if c = '-' then (parseNat cs).map (fun n => -(Int.ofNat n))
      else (parseNat (c :: cs)).map Int.ofNat

/-- `str(v)` for the scalar JSON values (all any claim exercises; the
container renderings are irrelevant to every claim and left empty). -/
def pyStrScalar : JVal → String
  | .num n => intDecStr n
  | .str s => s
  | .bool true => "True"
  | .bool false => "False"
  | .null => "None"
  | .arr _ => ""
  | .obj _ => ""

/-- `build_matches_url(team_id)`: pure formatting of the display URL. -/
def build_matches_url (team_id : JVal) : String :=
  "https://www.opendota.com/teams/" ++ pyStrScalar team_id ++ "/matches"

/-! ### The CSV exporter -/

/-- `export_to_csv(match_ids, team_name)`: `none` when the list is empty
(`if not match_ids` prints and returns, writing nothing); otherwise the
written file's name `<team_name>_match_ids.csv` and its rows — the
`match_id` header followed by one rendered id per row (`index=False`, so
no index column). -/
def export_to_csv (match_ids : List JVal) (team_name : String) :
    Option (String × List String) :=
  if match_ids.isEmpty then none
  else some (team_name ++ "_match_ids.csv", "match_id" :: match_ids.map pyStrScalar)

/-- The local filesystem: filename to rows of the file's content. -/
def FileSystem : Type := String → Option (List String)

/-- `df.to_csv(filename, ...)` creates or silently replaces the file. -/
def fsWrite (fs : FileSystem) (name : String) (content : List String) : FileSystem :=
  fun n => if n = name then some content else fs n

/-- Effect of one `export_to_csv` call on the filesystem. -/
def export_to_csv_run (fs : FileSystem) (match_ids : List JVal)
    (team_name : String) : FileSystem :=
  match export_to_csv match_ids team_name with
  | none => fs
  | some (name, content) => fsWrite fs name content

/-- Reading the CSV back: requires the single `match_id` header row, then
parses each remaining row as a decimal integer. -/
def parseRows : List String → Option (List Int)
  | [] => some []
  | r :: rs =>
      match parseInt r.data, parseRows rs with
      | some i, some is => some (i :: is)
      | _, _ => none

/-- Read a written CSV (as its list of rows) back into integers. -/
def readCsv (lines : List String) : Option (List Int) :=
  match lines with
  | [] => none
  | header :: rows => if header = "match_id" then parseRows rows else none

/-! ### The orchestrator -/

/-- Python's `str.strip()`: drop leading and trailing whitespace
(space, `\t`, `\n`, `\r`, `\x0b`, `\x0c`). -/
def isPySpace (c : Char) : Bool :=
  c == ' ' || c == '\t' || c == '\n' || c == '\r' ||
  c == Char.ofNat 11 || c == Char.ofNat 12

/-- `userInput.strip()`. -/
def pyStrip (s : String) : String :=
  ⟨((s.data.dropWhile isPySpace).reverse.dropWhile isPySpace).reverse⟩

/-- Python's `if not x` test on the result of `get_team_id`: `None` and
every falsy value (in particular the integer `0`) fail the test. -/
def pyTruthyOpt : Option JVal → Bool
  | none => false
  | some v => pyTruthy v

/-- Observable outcome of one `main()` run: which stages ran, which network
calls were issued, the resolved team id, the match ids obtained, and the
file written (name and rows), if any. -/
structure MainRun where
  teamsApiCalled : Bool
  matchesApiCalled : Bool
  resolveStageRun : Bool
  listStageRun : Bool
  exportStageRun : Bool
  teamId : Option JVal
  matchIds : List JVal
  fileWritten : Option (String × List String)

/-- The run that halts at the empty-input guard: nothing after
`PromptInput` executes. -/
def emptyInputRun : MainRun :=
  { teamsApiCalled := false, matchesApiCalled := false, resolveStageRun := false,
    listStageRun := false, exportStageRun := false, teamId := none,
    matchIds := [], fileWritten := none }

/-- The run that halts after `ResolveTeam` (`if not team_id: ... return`). -/
def resolveHaltRun (tid : Option JVal) : MainRun :=
  { teamsApiCalled := true, matchesApiCalled := false, resolveStageRun := true,
    listStageRun := false, exportStageRun := false, teamId := tid,
    matchIds := [], fileWritten := none }

/-- The run that halts after `ListMatches` (`if not match_ids: ... return`). -/
def noMatchesRun (tid : Option JVal) (ids : List JVal) : MainRun :=
  { teamsApiCalled := true, matchesApiCalled := true, resolveStageRun := true,
    listStageRun := true, exportStageRun := false, teamId := tid,
    matchIds := ids, fileWritten := none }

/-- The run that reaches `Export`. -/
def exportRun (tid : Option JVal) (ids : List JVal) (team_name : String) : MainRun :=
  { teamsApiCalled := true, matchesApiCalled := true, resolveStageRun := true,
    listStageRun := true, exportStageRun := true, teamId := tid,
    matchIds := ids, fileWritten := export_to_csv ids team_name }

/-- `main()`, parameterized by the prompt's input and the outcome of each
of the two possible network calls.  An exception a crawler function does
not catch propagates out of `main` as well (it has no handler). -/
def main (userInput : String) (teamsResp matchesResp : HttpResult) :
    Except PyExc MainRun :=
  let team_name := pyStrip userInput
  if team_name = "" then .ok emptyInputRun
  else
    match get_team_id team_name teamsResp with
    | .error e => .error e
    | .ok tid =>
        if pyTruthyOpt tid then
          match crawl_match_ids (tid.getD .null) matchesResp with
          | .error e => .error e
          | .ok ids =>
              if ids.isEmpty then .ok (noMatchesRun tid ids)
              else .ok (exportRun tid ids team_name)
        else .ok (resolveHaltRun tid)

/-! ### Record-shape predicates used to state the claims

These restate, on the spec's side, the data-model constraints on records
(`name` a string, `team_id` present) and the claim-level match rule, to be
compared with what the embedded code does. -/

/-- Is the value a mapping? -/
def isObj : JVal → Bool
  | .obj _ => true
  | _ => false

/-- A well-formed team record per the spec's data model: a mapping whose
`name` field is a string and which has a `team_id` field. -/
def wfTeam : JVal → Bool
  | .obj fields =>
      (match fieldLookup "name" fields with
       | some (.str _) => true
       | _ => false) &&
      (fieldLookup "team_id" fields).isSome
  | _ => false

/-- The claim-level match rule: the record is a mapping with a string
`name` whose lower-cased form contains the lower-cased input as a
substring. -/
def nameMatches (team_name : String) : JVal → Bool
  | .obj fields =>
      (match fieldLookup "name" fields with
       | some (.str s) => strContainsL (lowerStr s) (lowerStr team_name)
       | _ => false)
  | _ => false

/-- A record the loop passes over without error: a mapping whose `name`
field is either absent or a non-matching string. -/
def skipsTeam (team_name : String) : JVal → Bool
  | .obj fields =>
      (match fieldLookup "name" fields with
       | none => true
       | some (.str s) => !strContainsL (lowerStr s) (lowerStr team_name)
       | some _ => false)
  | _ => false

/-- A record shape on which the loop condition evaluates without an
uncaught exception: a mapping whose `name` field, when present, is a
string. -/
def goodTeamShape : JVal → Bool
  | .obj fields =>
      (match fieldLookup "name" fields with
       | none => true
       | some (.str _) => true
       | some _ => false)
  | _ => false

/-- Is the value a JSON list? -/
def isList : JVal → Bool
  | .arr _ => true
  | _ => false

/-! ### Helper lemmas -/

theorem strContainsL_nil_needle (hay : List Char) : strContainsL hay [] = true := by
  cases hay with
  | nil => rfl
  | cons c rest => simp [strContainsL, listStartsWith]

theorem isObj_exists_fields {t : JVal} (h : isObj t = true) :
    ∃ fs, t = JVal.obj fs := by
  cases t with
  | obj fields => exact ⟨fields, rfl⟩
  | null => simp [isObj] at h
  | bool b => simp [isObj] at h
  | num n => simp [isObj] at h
  | str s => simp [isObj] at h
  | arr l => simp [isObj] at h

theorem goodTeamShape_isObj {t : JVal} (h : goodTeamShape t = true) :
    ∃ fs, t = JVal.obj fs := by
  cases t with
  | obj fields => exact ⟨fields, rfl⟩
  | null => simp [goodTeamShape] at h
  | bool b => simp [goodTeamShape] at h
  | num n => simp [goodTeamShape] at h
  | str s => simp [goodTeamShape] at h
  | arr l => simp [goodTeamShape] at h

theorem wfTeam_goodShape {t : JVal} (h : wfTeam t = true) : goodTeamShape t = true := by
  cases t with
  | obj fields =>
      cases hl : fieldLookup "name" fields with
      | none => simp [wfTeam, hl] at h
      | some v => cases v <;> simp_all [wfTeam, goodTeamShape, hl]
  | null => simp [wfTeam] at h
  | bool b => simp [wfTeam] at h
  | num n => simp [wfTeam] at h
  | str s => simp [wfTeam] at h
  | arr l => simp [wfTeam] at h

theorem wfTeam_teamId_isSome {t : JVal} (h : wfTeam t = true) :
    (objLookup "team_id" t).isSome = true := by
  cases t with
  | obj fields =>
      simp only [wfTeam, Bool.and_eq_true] at h
      simpa [objLookup] using h.2
  | null => simp [wfTeam] at h
  | bool b => simp [wfTeam] at h
  | num n => simp [wfTeam] at h
  | str s => simp [wfTeam] at h
  | arr l => simp [wfTeam] at h

theorem skipsTeam_goodShape {team_name : String} {t : JVal}
    (h : skipsTeam team_name t = true) :
    goodTeamShape t = true ∧ nameMatches team_name t = false := by
  cases t with
  | obj fields =>
      cases hl : fieldLookup "name" fields with
      | none => simp [goodTeamShape, nameMatches, hl]
      | some v => cases v <;> simp_all [skipsTeam, goodTeamShape, nameMatches, hl]
  | null => simp [skipsTeam] at h
  | bool b => simp [skipsTeam] at h
  | num n => simp [skipsTeam] at h
  | str s => simp [skipsTeam] at h
  | arr l => simp [skipsTeam] at h

theorem nameMatches_goodShape {team_name : String} {t : JVal}
    (h : nameMatches team_name t = true) : goodTeamShape t = true := by
  cases t with
  | obj fields =>
      cases hl : fieldLookup "name" fields with
      | none => simp [nameMatches, hl] at h
      | some v => cases v <;> simp_all [nameMatches, goodTeamShape, hl]
  | null => simp [nameMatches] at h
  | bool b => simp [nameMatches] at h
  | num n => simp [nameMatches] at h
  | str s => simp [nameMatches] at h
  | arr l => simp [nameMatches] at h

/-- On a record of good shape, the loop condition evaluates without
exception to exactly the claim-level match rule. -/
theorem matchesName_goodShape (team_name : String) {t : JVal}
    (h : goodTeamShape t = true) :
    matchesName team_name t = .ok (nameMatches team_name t) := by
  cases t with
  | obj fields =>
      cases hl : fieldLookup "name" fields with
      | none => simp [matchesName, pyContains, hl, nameMatches]
      | some v =>
          have hv : ∃ s, v = JVal.str s := by
            cases v <;> simp_all [goodTeamShape, hl]
          obtain ⟨s, rfl⟩ := hv
          simp [matchesName, pyContains, hl, pySubscript, pyLower, nameMatches]
  | null => simp [goodTeamShape] at h
  | bool b => simp [goodTeamShape] at h
  | num n => simp [goodTeamShape] at h
  | str s => simp [goodTeamShape] at h
  | arr l => simp [goodTeamShape] at h

theorem findTeamLoop_cons_skip {team_name : String} {t : JVal} (l : List JVal)
    (h : matchesName team_name t = .ok false) :
    findTeamLoop team_name (t :: l) = findTeamLoop team_name l := by
  simp only [findTeamLoop, h]

theorem findTeamLoop_cons_hit {team_name : String} {t : JVal} (l : List JVal)
    (h : matchesName team_name t = .ok true) :
    findTeamLoop team_name (t :: l) =
      match pySubscript "team_id" t with
      | .error e => .error e
      | .ok tid => .ok (some tid) := by
  simp only [findTeamLoop, h]

/-- The loop stops at the first matching record and returns its `team_id`
field, raising `KeyError` when that field is missing.  Records after the
first match are never inspected. -/
theorem findTeamLoop_first (team_name : String) (pre : List JVal) (r : JVal)
    (post : List JVal)
    (hpre : ∀ t ∈ pre, goodTeamShape t = true ∧ nameMatches team_name t = false)
    (hr : goodTeamShape r = true) (hm : nameMatches team_name r = true) :
    findTeamLoop team_name (pre ++ r :: post) =
      match objLookup "team_id" r with
      | some v => .ok (some v)
      | none => .error .keyError := by
  induction pre with
  | nil =>
      simp only [List.nil_append]
      rw [findTeamLoop_cons_hit post (by rw [matchesName_goodShape team_name hr, hm])]
      obtain ⟨fields, rfl⟩ := goodTeamShape_isObj hr
      cases hf : fieldLookup "team_id" fields <;>
        simp [pySubscript, objLookup, hf]
  | cons t pre' ih =>
      have ht := hpre t (by simp)
      have hrest := ih (fun x hx => hpre x (by simp [hx]))
      rw [List.cons_append,
        findTeamLoop_cons_skip _ (by rw [matchesName_goodShape team_name ht.1, ht.2]),
        hrest]

theorem get_team_id_ok_arr_cons (team_name : String) (t : JVal) (ts : List JVal) :
    get_team_id team_name (.ok (.arr (t :: ts)))
      = runGuarded none (findTeamLoop team_name (t :: ts)) := rfl

/-- Shared core of the first-match claims: with well-shaped non-matching
records before it, the first record matching the rule yields its
`team_id` value. -/
theorem get_team_id_first_common (team_name : String) (pre post : List JVal)
    (r : JVal)
    (hpre : ∀ t ∈ pre, goodTeamShape t = true ∧ nameMatches team_name t = false)
    (hr : wfTeam r = true) (hm : nameMatches team_name r = true) :
    get_team_id team_name (.ok (.arr (pre ++ r :: post)))
      = .ok (objLookup "team_id" r) ∧ (objLookup "team_id" r).isSome = true := by
  have hid : (objLookup "team_id" r).isSome = true := wfTeam_teamId_isSome hr
  obtain ⟨v, hv⟩ := Option.isSome_iff_exists.mp hid
  have hloop := findTeamLoop_first team_name pre r post hpre (wfTeam_goodShape hr) hm
  rw [hv] at hloop ⊢
  refine ⟨?_, rfl⟩
  cases pre with
  | nil => rw [List.nil_append] at hloop ⊢; rw [get_team_id_ok_arr_cons, hloop]; rfl
  | cons t pre' =>
      rw [List.cons_append] at hloop ⊢
      rw [get_team_id_ok_arr_cons, hloop]
      rfl

/-- On a list of mappings, the comprehension of `crawl_match_ids` never
raises and collects exactly the `match_id` values of the records that have
one, in order. -/
theorem extractMatchIds_objs (l : List JVal) (h : ∀ m ∈ l, isObj m = true) :
    extractMatchIds l = .ok (l.filterMap (objLookup "match_id")) := by
  induction l with
  | nil => rfl
  | cons m rest ih =>
      obtain ⟨fields, rfl⟩ : ∃ fs, m = JVal.obj fs := by
        have hm := h m (by simp)
        cases m with
        | obj fields => exact ⟨fields, rfl⟩
        | null => simp [isObj] at hm
        | bool b => simp [isObj] at hm
        | num n => simp [isObj] at hm
        | str s => simp [isObj] at hm
        | arr l => simp [isObj] at hm
      have hrest := ih (fun x hx => h x (by simp [hx]))
      cases hf : fieldLookup "match_id" fields with
      | none =>
          simp [extractMatchIds, pyContains, hf, hrest, objLookup]
      | some v =>
          simp [extractMatchIds, pyContains, hf, pySubscript, hrest, objLookup]

/-- On a list of good-shaped records, the resolver loop either raises
`KeyError` (a matching record without `team_id`) or returns a value; it
never raises an uncaught exception. -/
theorem findTeamLoop_goodShapes (team_name : String) (l : List JVal)
    (h : ∀ t ∈ l, goodTeamShape t = true) :
    findTeamLoop team_name l = .error .keyError ∨
      ∃ v, findTeamLoop team_name l = .ok v := by
  induction l with
  | nil => exact .inr ⟨none, rfl⟩
  | cons t rest ih =>
      have ht := h t (by simp)
      have hrest := ih (fun x hx => h x (by simp [hx]))
      cases hm : nameMatches team_name t with
      | false =>
          rw [findTeamLoop_cons_skip rest (by rw [matchesName_goodShape team_name ht, hm])]
          exact hrest
      | true =>
          rw [findTeamLoop_cons_hit rest (by rw [matchesName_goodShape team_name ht, hm])]
          obtain ⟨fields, rfl⟩ := goodTeamShape_isObj ht
          cases hf : fieldLookup "team_id" fields with
          | none => exact .inl (by simp [pySubscript, hf])
          | some v => exact .inr ⟨some v, by simp [pySubscript, hf]⟩

/-! ### Decimal roundtrip lemmas -/

theorem parseNatAux_append (l1 l2 : List Char) (acc : Nat) :
    parseNatAux acc (l1 ++ l2) =
      match parseNatAux acc l1 with
      | some a => parseNatAux a l2
      | none => none := by
  induction l1 generalizing acc with
  | nil => simp [parseNatAux]
  | cons c cs ih =>
      simp only [List.cons_append, parseNatAux]
      cases hd : decDigit? c with
      | none => rfl
      | some d => simp [ih]

theorem decDigit?_digitChar (d : Nat) (h : d < 10) :
    decDigit? (Nat.digitChar d) = some d := by
  interval_cases d <;> decide

theorem digitChar_ne_dash (d : Nat) (h : d < 10) : Nat.digitChar d ≠ '-' := by
  interval_cases d <;> decide

theorem natDecAux_parse (fuel n : Nat) (h : n ≤ fuel) :
    parseNatAux 0 (natDecAux fuel n) = some n := by
  induction fuel generalizing n with
  | zero => interval_cases n; rfl
  | succ f ih =>
      by_cases hn : n = 0
      · subst hn; rfl
      · have hdiv : n / 10 ≤ f := by omega
        simp only [natDecAux, if_neg hn]
        rw [parseNatAux_append, ih (n / 10) hdiv]
        simp only [parseNatAux, decDigit?_digitChar (n % 10) (by omega)]
        have : n / 10 * 10 + n % 10 = n := by omega
        rw [this]

theorem natDecAux_no_dash (fuel n : Nat) : '-' ∉ natDecAux fuel n := by
  induction fuel generalizing n with
  | zero => simp [natDecAux]
  | succ f ih =>
      by_cases hn : n = 0
      · simp [natDecAux, hn]
      · have hd := digitChar_ne_dash (n % 10) (by omega)
        simp only [natDecAux, if_neg hn, List.mem_append, List.mem_singleton]
        push_neg
        exact ⟨ih _, fun hc => hd hc.symm⟩

theorem natDec_no_dash (n : Nat) : '-' ∉ natDec n := by
  by_cases hn : n = 0
  · simp [natDec, hn]
  · simp only [natDec, if_neg hn]
    exact natDecAux_no_dash n n

theorem natDec_ne_nil (n : Nat) : natDec n ≠ [] := by
  by_cases hn : n = 0
  · simp [natDec, hn]
  · obtain ⟨m, rfl⟩ : ∃ m, n = m + 1 := ⟨n - 1, by omega⟩
    simp [natDec, natDecAux, hn]

theorem parseNat_natDec (n : Nat) : parseNat (natDec n) = some n := by
  cases hcs : natDec n with
  | nil => exact absurd hcs (natDec_ne_nil n)
  | cons c cs =>
      show parseNatAux 0 (c :: cs) = some n
      rw [← hcs]
      by_cases hn : n = 0
      · subst hn
        have : natDec 0 = ['0'] := rfl
        rw [this]; rfl
      · simp only [natDec, if_neg hn]
        exact natDecAux_parse n n le_rfl

theorem parseInt_intDec (i : Int) : parseInt (intDec i) = some i := by
  by_cases hi : i < 0
  · rw [intDec, if_pos hi, parseInt, if_pos rfl, parseNat_natDec,
      Option.map_some']
    congr 1
    show -(Int.ofNat i.natAbs) = i
    simp only [Int.ofNat_eq_natCast]
    omega
  · simp only [intDec, if_neg hi]
    cases hcs : natDec i.natAbs with
    | nil => exact absurd hcs (natDec_ne_nil _)
    | cons c cs =>
        have hcne : c ≠ '-' := by
          intro hc
          exact natDec_no_dash i.natAbs (by rw [hcs, hc]; simp)
        simp only [parseInt, if_neg hcne]
        rw [← hcs, parseNat_natDec, Option.map_some']
        congr 1
        show Int.ofNat i.natAbs = i
        simp only [Int.ofNat_eq_natCast]
        omega

theorem parseRows_map (ids : List Int) :
    parseRows (ids.map intDecStr) = some ids := by
  induction ids with
  | nil => rfl
  | cons i is ih =>
      have hdata : (intDecStr i).data = intDec i := rfl
      simp only [List.map_cons, parseRows, hdata, parseInt_intDec, ih]

theorem map_num_render (ids : List Int) :
    (ids.map JVal.num).map pyStrScalar = ids.map intDecStr := by
  induction ids with
  | nil => rfl
  | cons i is ih => simp only [List.map_cons, List.cons.injEq, pyStrScalar, ih]

/-! ### Case analysis of `main` -/

/-- Every successful `main` run is one of the four stage outcomes, with
the branch conditions that led there. -/
theorem main_run_cases (userInput : String) (rA rB : HttpResult) (run : MainRun)
    (h : main userInput rA rB = .ok run) :
    run = emptyInputRun ∨
    (∃ tid, pyTruthyOpt tid = false ∧ run = resolveHaltRun tid) ∨
    (∃ tid ids, pyTruthyOpt tid = true ∧ ids.isEmpty = true ∧
        run = noMatchesRun tid ids) ∨
    (∃ tid ids, pyTruthyOpt tid = true ∧ ids.isEmpty = false ∧
        run = exportRun tid ids (pyStrip userInput)) := by
  simp only [main] at h
  split at h
  · injection h with h'
    exact .inl h'.symm
  · split at h
    · exact Except.noConfusion h
    · rename_i tid htid
      split at h
      · rename_i htruthy
        split at h
        · exact Except.noConfusion h
        · rename_i ids hids
          split at h
          · rename_i hempty
            injection h with h'
            exact .inr (.inr (.inl ⟨tid, ids, htruthy, hempty, h'.symm⟩))
          · rename_i hempty
            injection h with h'
            exact .inr (.inr (.inr ⟨tid, ids, htruthy, by simpa using hempty, h'.symm⟩))
      · rename_i htruthy
        injection h with h'
        exact .inr (.inl ⟨tid, by simpa using htruthy, h'.symm⟩)

/-! ### Claim theorems -/

/-- C1: for every team list of well-formed records and every non-empty
team name whose lower-cased form is a substring of at least one record's
lower-cased `name`, `get_team_id` returns the `team_id` of the first such
record in list order — first match wins, no ranking.  The list is written
as `pre ++ r :: post` with `r` the first matching record; records after it
are arbitrary, since the loop never reaches them. -/
theorem c1_get_team_id_first_match (team_name : String) (hne : team_name ≠ "")
    (pre post : List JVal) (r : JVal)
    (hpre : ∀ t ∈ pre, wfTeam t = true ∧ nameMatches team_name t = false)
    (hr : wfTeam r = true) (hm : nameMatches team_name r = true) :
    get_team_id team_name (.ok (.arr (pre ++ r :: post)))
      = .ok (objLookup "team_id" r) ∧ (objLookup "team_id" r).isSome = true :=
  get_team_id_first_common team_name pre post r
    (fun t ht => ⟨wfTeam_goodShape (hpre t ht).1, (hpre t ht).2⟩) hr hm

/-- C1 witness: the spec's scenario 2 — on
`[{"name":"OG","team_id":2}, {"name":"OG.LDL","team_id":3}]` the input
`"og"` resolves to `2` (the first match), not `3`. -/
theorem c1_witness :
    ("og" : String) ≠ "" ∧
    (∀ t ∈ ([] : List JVal), wfTeam t = true ∧ nameMatches "og" t = false) ∧
    wfTeam (.obj [("name", .str "OG"), ("team_id", .num 2)]) = true ∧
    nameMatches "og" (.obj [("name", .str "OG"), ("team_id", .num 2)]) = true ∧
    (get_team_id "og" (.ok (.arr ([] ++ JVal.obj [("name", .str "OG"), ("team_id", .num 2)] ::
          [JVal.obj [("name", .str "OG.LDL"), ("team_id", .num 3)]])))
        = .ok (objLookup "team_id" (.obj [("name", .str "OG"), ("team_id", .num 2)])) ∧
      (objLookup "team_id" (JVal.obj [("name", .str "OG"), ("team_id", .num 2)])).isSome = true) :=
  ⟨by decide, by simp, rfl, rfl,
    c1_get_team_id_first_match "og" (by decide) []
      [JVal.obj [("name", .str "OG.LDL"), ("team_id", .num 3)]]
      (JVal.obj [("name", .str "OG"), ("team_id", .num 2)]) (by simp) rfl rfl⟩

/-- C2: for every list of match records (mappings), `crawl_match_ids`
yields exactly the `match_id` values of the records that possess the
field, in list order, silently omitting records that lack it, and reports
no error. -/
theorem c2_crawl_match_ids_extracts (team_id : JVal) (data : List JVal)
    (h : ∀ m ∈ data, isObj m = true) :
    crawl_match_ids team_id (.ok (.arr data))
      = .ok (data.filterMap (objLookup "match_id")) := by
  cases data with
  | nil => rfl
  | cons m rest =>
      have he := extractMatchIds_objs (m :: rest) h
      show runGuarded [] (extractMatchIds (m :: rest)) = _
      rw [he]
      rfl

/-- C2 witness: the spec's scenario 3 —
`[{"match_id":100},{"foo":1},{"match_id":200}]` yields `[100, 200]`. -/
theorem c2_witness :
    (∀ m ∈ ([JVal.obj [("match_id", .num 100)], JVal.obj [("foo", .num 1)],
        JVal.obj [("match_id", .num 200)]] : List JVal), isObj m = true) ∧
    crawl_match_ids (.num 1) (.ok (.arr [JVal.obj [("match_id", .num 100)],
        JVal.obj [("foo", .num 1)], JVal.obj [("match_id", .num 200)]]))
      = .ok (([JVal.obj [("match_id", .num 100)], JVal.obj [("foo", .num 1)],
          JVal.obj [("match_id", .num 200)]] : List JVal).filterMap (objLookup "match_id")) :=
  ⟨by simp [isObj],
   c2_crawl_match_ids_extracts (.num 1) _ (by simp [isObj])⟩

/-- C3: the output CSV is written iff at least one match id was obtained —
`export_to_csv` writes no file on an empty list and writes one on every
non-empty list, and in every completed `main` run the file recorded as
written is `some` exactly when the obtained match id list is non-empty. -/
theorem c3_file_written_iff_ids_obtained :
    (∀ (ids : List JVal) (team_name : String),
        (export_to_csv ids team_name).isSome = true ↔ ids ≠ []) ∧
    (∀ (userInput : String) (rA rB : HttpResult) (run : MainRun),
        main userInput rA rB = .ok run →
        (run.fileWritten.isSome = true ↔ run.matchIds ≠ [])) := by
  constructor
  · intro ids tn
    cases ids <;> simp [export_to_csv]
  · intro ui rA rB run h
    rcases main_run_cases ui rA rB run h with rfl | ⟨tid, ht, rfl⟩ |
      ⟨tid, ids, ht, he, rfl⟩ | ⟨tid, ids, ht, he, rfl⟩
    · simp [emptyInputRun]
    · simp [resolveHaltRun]
    · have : ids = [] := by simpa using he
      subst this
      simp [noMatchesRun]
    · have hne : ids ≠ [] := by
        intro hc; subst hc; simp at he
      simp [exportRun, export_to_csv, he, hne]

/-- C3 witness: the second conjunct applied to a concrete run. -/
theorem c3_witness :
    emptyInputRun.fileWritten.isSome = true ↔ emptyInputRun.matchIds ≠ [] :=
  c3_file_written_iff_ids_obtained.2 " " .netError .netError emptyInputRun rfl

/-- C4: exporting a non-empty list of N integers writes
`<team_name>_match_ids.csv` whose rows are the single `match_id` header
followed by the N integers in order (no index column), and reading that
file back yields the same N integers in the same order. -/
theorem c4_export_roundtrip (ids : List Int) (team_name : String) (hne : ids ≠ []) :
    export_to_csv (ids.map JVal.num) team_name
      = some (team_name ++ "_match_ids.csv", "match_id" :: ids.map intDecStr) ∧
    readCsv ("match_id" :: ids.map intDecStr) = some ids := by
  constructor
  · have hem : (ids.map JVal.num).isEmpty = false := by
      cases ids with
      | nil => exact absurd rfl hne
      | cons a as => rfl
    unfold export_to_csv
    rw [if_neg (by simp [hem]), map_num_render]
  · simp only [readCsv, if_true]
    exact parseRows_map ids

/-- C4 witness: exporting `[100, 200]` and reading the file back. -/
theorem c4_witness :
    ([100, 200] : List Int) ≠ [] ∧
    (export_to_csv (([100, 200] : List Int).map JVal.num) "OG"
        = some ("OG" ++ "_match_ids.csv", "match_id" :: ([100, 200] : List Int).map intDecStr) ∧
      readCsv ("match_id" :: ([100, 200] : List Int).map intDecStr) = some [100, 200]) :=
  ⟨by decide, c4_export_roundtrip [100, 200] "OG" (by decide)⟩

/-- C5: exporting the same non-empty match id list twice under the same
team name leaves the filesystem exactly as a single export does — the
existing file is silently replaced, never appended to. -/
theorem c5_export_idempotent (fs : FileSystem) (ids : List JVal)
    (team_name : String) (hne : ids ≠ []) :
    export_to_csv_run (export_to_csv_run fs ids team_name) ids team_name
      = export_to_csv_run fs ids team_name := by
  unfold export_to_csv_run
  cases h : export_to_csv ids team_name with
  | none => rfl
  | some p =>
      obtain ⟨name, content⟩ := p
      funext x
      unfold fsWrite
      by_cases hx : x = name <;> simp [hx]

/-- C5 witness: double export of `[1]` on the empty filesystem. -/
theorem c5_witness :
    ([JVal.num 1] : List JVal) ≠ [] ∧
    export_to_csv_run (export_to_csv_run (fun _ => none) [JVal.num 1] "OG")
        [JVal.num 1] "OG"
      = export_to_csv_run (fun _ => none) [JVal.num 1] "OG" :=
  ⟨by simp, c5_export_idempotent (fun _ => none) [JVal.num 1] "OG" (by simp)⟩

/-- C6: when the user input strips to the empty string, `main` halts at the
input guard: no network call is made and no stage after `PromptInput`
executes. -/
theorem c6_empty_input_halts (userInput : String) (rA rB : HttpResult)
    (h : pyStrip userInput = "") :
    main userInput rA rB = .ok emptyInputRun ∧
    ∀ run : MainRun, main userInput rA rB = .ok run →
      run.teamsApiCalled = false ∧ run.matchesApiCalled = false ∧
      run.resolveStageRun = false ∧ run.listStageRun = false ∧
      run.exportStageRun = false ∧ run.fileWritten = none := by
  have hm : main userInput rA rB = .ok emptyInputRun := by
    simp only [main, h, if_true]
  refine ⟨hm, ?_⟩
  intro run hrun
  rw [hm] at hrun
  injection hrun with h'
  subst h'
  exact ⟨rfl, rfl, rfl, rfl, rfl, rfl⟩

/-- C6 witness: a whitespace-only input. -/
theorem c6_witness :
    pyStrip " \t " = "" ∧
    (main " \t " .netError .badJson = .ok emptyInputRun ∧
     ∀ run : MainRun, main " \t " .netError .badJson = .ok run →
       run.teamsApiCalled = false ∧ run.matchesApiCalled = false ∧
       run.resolveStageRun = false ∧ run.listStageRun = false ∧
       run.exportStageRun = false ∧ run.fileWritten = none) :=
  ⟨rfl, c6_empty_input_halts " \t " .netError .badJson rfl⟩

/-- C7 counterexample: the claim fails — a list containing a non-mapping
element makes both functions raise an uncaught `TypeError` (`'name' in 7`),
and a record whose `name` is not a string makes `get_team_id` raise an
uncaught `AttributeError` (`(5).lower()`); neither is converted to the
sentinel, contradicting "no exception propagates out of either
function". -/
theorem c7_counterexample :
    get_team_id "og" (.ok (.arr [.num 7])) = .error .typeError ∧
    crawl_match_ids (.num 1) (.ok (.arr [.num 7])) = .error .typeError ∧
    get_team_id "og" (.ok (.arr [.obj [("name", .num 5)]])) = .error .attributeError :=
  ⟨rfl, rfl, rfl⟩

/-- C7 (amended): network and JSON-decode failures and non-list responses
are converted to the sentinel, and on lists of mappings (with string
`name` fields where present, for `get_team_id`) no exception escapes
either function; but `TypeError`/`AttributeError` from non-mapping list
elements or non-string `name` fields are outside the `except` clauses and
propagate. -/
theorem c7_amended_error_boundary (team_name : String) (team_id : JVal) :
    (get_team_id team_name .netError = .ok none) ∧
    (get_team_id team_name .badJson = .ok none) ∧
    (∀ data : JVal, isList data = false → get_team_id team_name (.ok data) = .ok none) ∧
    (∀ elems : List JVal, (∀ t ∈ elems, goodTeamShape t = true) →
        ∃ v, get_team_id team_name (.ok (.arr elems)) = .ok v) ∧
    (crawl_match_ids team_id .netError = .ok []) ∧
    (crawl_match_ids team_id .badJson = .ok []) ∧
    (∀ data : JVal, isList data = false → crawl_match_ids team_id (.ok data) = .ok []) ∧
    (∀ elems : List JVal, (∀ m ∈ elems, isObj m = true) →
        ∃ l, crawl_match_ids team_id (.ok (.arr elems)) = .ok l) := by
  refine ⟨rfl, rfl, ?_, ?_, rfl, rfl, ?_, ?_⟩
  · intro data h
    cases data with
    | arr l => simp [isList] at h
    | null => rfl
    | bool b => rfl
    | num n => rfl
    | str s => rfl
    | obj fs => rfl
  · intro elems h
    cases elems with
    | nil => exact ⟨none, rfl⟩
    | cons t ts =>
        rcases findTeamLoop_goodShapes team_name (t :: ts) h with hk | ⟨v, hv⟩
        · exact ⟨none, by rw [get_team_id_ok_arr_cons, hk]; rfl⟩
        · exact ⟨v, by rw [get_team_id_ok_arr_cons, hv]; rfl⟩
  · intro data h
    cases data with
    | arr l => simp [isList] at h
    | null => rfl
    | bool b => rfl
    | num n => rfl
    | str s => rfl
    | obj fs => rfl
  · intro elems h
    cases elems with
    | nil => exact ⟨[], rfl⟩
    | cons m ms =>
        refine ⟨(m :: ms).filterMap (objLookup "match_id"), ?_⟩
        show runGuarded [] (extractMatchIds (m :: ms)) = _
        rw [extractMatchIds_objs (m :: ms) h]
        rfl

/-- C7 witness: instantiating the amended boundary theorem. -/
theorem c7_witness :
    isList (.num 3) = false ∧
    get_team_id "og" (.ok (.num 3)) = .ok none ∧
    (∀ t ∈ ([JVal.obj [("name", .str "OG")]] : List JVal), goodTeamShape t = true) ∧
    (∃ v, get_team_id "og" (.ok (.arr [JVal.obj [("name", .str "OG")]])) = .ok v) :=
  ⟨rfl,
   (c7_amended_error_boundary "og" (.num 1)).2.2.1 (.num 3) rfl,
   by intro t ht; simp only [List.mem_singleton] at ht; subst ht; rfl,
   (c7_amended_error_boundary "og" (.num 1)).2.2.2.1 _
     (by intro t ht; simp only [List.mem_singleton] at ht; subst ht; rfl)⟩

/-- C8 counterexample: the claim fails — with a team list resolving to the
integer team id `0`, the resolver yields an integer, yet `main` halts
after `ResolveTeam` (`if not team_id` treats `0` as not-found) and the
`ListMatches` stage never runs. -/
theorem c8_counterexample :
    (main "og" (.ok (.arr [.obj [("name", .str "OG"), ("team_id", .num 0)]]))
        (.ok (.arr [.obj [("match_id", .num 5)]]))).map
      (fun r => (r.teamId, r.listStageRun, r.resolveStageRun))
      = .ok (some (.num 0), false, true) := rfl

/-- C8 (amended): the orchestrator proceeds from `ResolveTeam` to
`ListMatches` exactly when the resolved value is truthy; in particular a
resolved integer team id `k` proceeds iff `k ≠ 0` — the id `0` is treated
like not-found by the `if not team_id` test. -/
theorem c8_amended_truthiness_gate (userInput : String) (rA rB : HttpResult)
    (run : MainRun) (h : main userInput rA rB = .ok run) :
    (run.listStageRun = true ↔
      (run.resolveStageRun = true ∧ pyTruthyOpt run.teamId = true)) ∧
    (∀ k : Int, run.teamId = some (.num k) → (run.listStageRun = true ↔ k ≠ 0)) := by
  rcases main_run_cases _ _ _ _ h with rfl | ⟨tid, ht, rfl⟩ |
    ⟨tid, ids, ht, he, rfl⟩ | ⟨tid, ids, ht, he, rfl⟩
  · constructor
    · simp [emptyInputRun, pyTruthyOpt]
    · intro k hk
      simp [emptyInputRun] at hk
  · constructor
    · simp [resolveHaltRun, ht]
    · intro k hk
      simp only [resolveHaltRun] at hk ⊢
      rw [hk] at ht
      simp only [pyTruthyOpt, pyTruthy] at ht
      have : k = 0 := by simpa using ht
      simp [this]
  · constructor
    · simp [noMatchesRun, ht]
    · intro k hk
      simp only [noMatchesRun] at hk ⊢
      rw [hk] at ht
      simp only [pyTruthyOpt, pyTruthy] at ht
      have : k ≠ 0 := by simpa using ht
      simp [this]
  · constructor
    · simp [exportRun, ht]
    · intro k hk
      simp only [exportRun] at hk ⊢
      rw [hk] at ht
      simp only [pyTruthyOpt, pyTruthy] at ht
      have : k ≠ 0 := by simpa using ht
      simp [this]

/-- C8 witness: a run halting at `ResolveTeam` after a network failure. -/
theorem c8_witness :
    main "x" .netError .netError = .ok (resolveHaltRun none) ∧
    (((resolveHaltRun none).listStageRun = true ↔
        ((resolveHaltRun none).resolveStageRun = true ∧
         pyTruthyOpt (resolveHaltRun none).teamId = true)) ∧
     (∀ k : Int, (resolveHaltRun none).teamId = some (.num k) →
        ((resolveHaltRun none).listStageRun = true ↔ k ≠ 0))) :=
  ⟨rfl, c8_amended_truthiness_gate "x" .netError .netError (resolveHaltRun none) rfl⟩

/-- C9 counterexample: the claim fails — a team list containing a record
without a `name` key is processed without any parse-error report:
`get_team_id` skips the malformed record and returns the next record's
`team_id`, not the claimed not-found `None`. -/
theorem c9_counterexample :
    objLookup "name" (.obj [("team_id", .num 5)]) = none ∧
    get_team_id "og" (.ok (.arr [.obj [("team_id", .num 5)],
        .obj [("name", .str "OG"), ("team_id", .num 2)]]))
      = .ok (some (.num 2)) ∧
    (Except.ok (some (JVal.num 2)) : Except PyExc (Option JVal)) ≠ .ok none :=
  ⟨rfl, rfl, by simp⟩

/-- C9 (amended): records missing the `name` key are silently skipped, not
an error; a parse error (`KeyError`, caught) with the not-found result
`None` arises exactly when the first name-matching record lacks the
`team_id` key. -/
theorem c9_amended_missing_keys (team_name : String) (pre post : List JVal)
    (r : JVal)
    (hpre : ∀ t ∈ pre, skipsTeam team_name t = true)
    (hm : nameMatches team_name r = true)
    (hid : objLookup "team_id" r = none) :
    get_team_id team_name (.ok (.arr (pre ++ r :: post))) = .ok none := by
  have hpre' : ∀ t ∈ pre, goodTeamShape t = true ∧ nameMatches team_name t = false :=
    fun t ht => skipsTeam_goodShape (hpre t ht)
  have hloop := findTeamLoop_first team_name pre r post hpre'
    (nameMatches_goodShape hm) hm
  rw [hid] at hloop
  cases pre with
  | nil =>
      rw [List.nil_append] at hloop ⊢
      rw [get_team_id_ok_arr_cons, hloop]
      rfl
  | cons t pre' =>
      rw [List.cons_append] at hloop ⊢
      rw [get_team_id_ok_arr_cons, hloop]
      rfl

/-- C9 witness: a skipped record without `name`, then a matching record
without `team_id`: result `None`. -/
theorem c9_witness :
    (∀ t ∈ ([JVal.obj [("team_id", .num 5)]] : List JVal), skipsTeam "og" t = true) ∧
    nameMatches "og" (.obj [("name", .str "OG")]) = true ∧
    objLookup "team_id" (.obj [("name", .str "OG")]) = none ∧
    get_team_id "og" (.ok (.arr ([JVal.obj [("team_id", .num 5)]] ++
        JVal.obj [("name", .str "OG")] :: []))) = .ok none :=
  ⟨by intro t ht; simp only [List.mem_singleton] at ht; subst ht; rfl,
   rfl, rfl,
   c9_amended_missing_keys "og" [JVal.obj [("team_id", .num 5)]] []
     (JVal.obj [("name", .str "OG")])
     (by intro t ht; simp only [List.mem_singleton] at ht; subst ht; rfl)
     rfl rfl⟩

/-- C10: called with the empty string on a non-empty list of well-formed
team records (records before the first one carrying a `name` key being
mappings without `name`), `get_team_id` returns the `team_id` of the first
record possessing a `name` key, because the empty string is a substring of
every name; no error or not-found is reported. -/
theorem c10_empty_name_matches_first (pre post : List JVal) (r : JVal)
    (hpre : ∀ t ∈ pre, isObj t = true ∧ objLookup "name" t = none)
    (hr : wfTeam r = true) :
    get_team_id "" (.ok (.arr (pre ++ r :: post)))
      = .ok (objLookup "team_id" r) ∧ (objLookup "team_id" r).isSome = true := by
  have hm : nameMatches "" r = true := by
    obtain ⟨fields, rfl⟩ := goodTeamShape_isObj (wfTeam_goodShape hr)
    cases hl : fieldLookup "name" fields with
    | none => simp [wfTeam, hl] at hr
    | some v =>
        have hv : ∃ s, v = JVal.str s := by
          cases v <;> simp_all [wfTeam, hl]
        obtain ⟨s, rfl⟩ := hv
        simp only [nameMatches, hl]
        rw [show lowerStr "" = [] from rfl]
        exact strContainsL_nil_needle _
  have hpre' : ∀ t ∈ pre, goodTeamShape t = true ∧ nameMatches "" t = false := by
    intro t ht
    obtain ⟨hobj, hnone⟩ := hpre t ht
    obtain ⟨fields, rfl⟩ := isObj_exists_fields hobj
    have hl : fieldLookup "name" fields = none := by simpa [objLookup] using hnone
    exact ⟨by simp [goodTeamShape, hl], by simp [nameMatches, hl]⟩
  exact get_team_id_first_common "" pre post r hpre' hr hm

/-- C10 witness: empty input, one record without `name` skipped, first
record with a `name` key wins. -/
theorem c10_witness :
    (∀ t ∈ ([JVal.obj [("team_id", .num 9)]] : List JVal),
        isObj t = true ∧ objLookup "name" t = none) ∧
    wfTeam (.obj [("name", .str "OG"), ("team_id", .num 2)]) = true ∧
    (get_team_id "" (.ok (.arr ([JVal.obj [("team_id", .num 9)]] ++
          JVal.obj [("name", .str "OG"), ("team_id", .num 2)] :: [])))
        = .ok (objLookup "team_id" (.obj [("name", .str "OG"), ("team_id", .num 2)])) ∧
      (objLookup "team_id" (JVal.obj [("name", .str "OG"), ("team_id", .num 2)])).isSome = true) :=
  ⟨by intro t ht; simp only [List.mem_singleton] at ht; subst ht; exact ⟨rfl, rfl⟩,
   rfl,
   c10_empty_name_matches_first [JVal.obj [("team_id", .num 9)]] []
     (JVal.obj [("name", .str "OG"), ("team_id", .num 2)])
     (by intro t ht; simp only [List.mem_singleton] at ht; subst ht; exact ⟨rfl, rfl⟩)
     rfl⟩

end Dota2
